import Mathlib

/-!
# Verification of the supervisor workflow orchestrator (src/main.py)

This file gives a shallow embedding of the orchestration core of
`src/main.py`: the per-run job record created by `start_job`, the logging
sink `log_to_job`, the auditor `audit_and_revise`, the workers
`worker_research` / `worker_writer`, and the phase loop `process_workflow`.

Modelling conventions:
* The generation backends are explicit function parameters.  The call the
  auditor makes through `prompt | llm | JsonOutputParser()` is a function
  from the four prompt variables (`task_name`, truncated `content`,
  `criteria`, `previous_instructions`) to `Option RawVerdict`: `none`
  models the chain raising (backend failure or output that the JSON
  parser cannot parse), `some v` models a successfully parsed JSON
  object, whose keys may individually be absent (`Option` fields).
  The writer chain `prompt | llm | StrOutputParser()` is a function from
  its four prompt variables to `Except String String`, `Except.error msg`
  modelling a raised backend exception with message `msg`.
* `datetime.now().strftime(..)` is modelled by a clock oracle
  `Nat → String` giving the timestamp of the n-th log append of the run.
* A log entry stores the interpolated data (timestamp, source, message,
  kind); the surrounding constant html of `log_to_job` is not repeated,
  and the exact punctuation of the f-string messages (quotes, newlines)
  is elided, which no property depends on.  `renderEvent` records which
  of the three fields each message kind actually interpolates into its
  html block.
* Python exception values are the inductive `Fault`; `faultMsg` renders
  the message interpolated into the terminal log entry (Python quotes a
  KeyError key; the quotes are elided).
* Input records are free-form dicts of which only the keys `firstName`
  and `companyName` are ever read; they are modelled by those two
  optional fields.  A payload whose `records` key is absent is the
  payload with the empty record list (the records key defaults to the empty list).
-/

/-- One input record; only the two keys the code reads are modelled. -/
structure Record where
  firstName : Option String
  companyName : Option String
deriving DecidableEq

/-- The request body handed to `process_workflow` (`input_json`). -/
structure Payload where
  records : List Record
deriving DecidableEq

/-- A parsed JSON object returned by the audit chain.  Each key of the
requested schema may be absent, as `JsonOutputParser` enforces no shape. -/
structure RawVerdict where
  status : Option String
  reason : Option String
  new_instructions : Option String
deriving DecidableEq

/-- The audit generation backend: from the prompt variables
(`task_name`, truncated `content`, `criteria`, `previous_instructions`)
to `none` (chain raised) or a parsed JSON verdict. -/
def AuditBackend : Type := String → String → String → String → Option RawVerdict

/-- The writer generation backend: from the prompt variables
(`first_name`, `company`, `research`, `instructions`) to the generated
text, or a raised error message. -/
def WriterBackend : Type := String → String → String → String → Except String String

/-- One appended log entry: the data `log_to_job` interpolates into the
html it appends to the logs list of the job record. -/
structure LogEvent where
  ts : String
  source : String
  msg : String
  kind : String
deriving DecidableEq

/-- Which fields the html block built by `log_to_job` actually shows for
each message kind: `decision` shows timestamp and message, `critique`
only the message, `thought` source and message, and every other kind
(the default branch) timestamp, source and message. -/
def renderEvent (e : LogEvent) : List String :=
  if e.kind == "decision" then [e.ts, e.msg]
  else if e.kind == "critique" then [e.msg]
  else if e.kind == "thought" then [e.source, e.msg]
  else [e.ts, e.source, e.msg]

/-- Python exception values that can escape to the `except` handler of
`process_workflow`. -/
inductive Fault
  | backendError (msg : String)
  | keyError (key : String)
  | indexError
deriving DecidableEq

/-- The message interpolated into the `Critical Error:` log entry
(Python renders a KeyError key quoted; quotes elided). -/
def faultMsg : Fault → String
  | .backendError m => m
  | .keyError k => k
  | .indexError => "list index out of range"

/-- The whole mutable state of one run: the fields of the `state` dict
built by `process_workflow` together with the fields of the `jobs[job_id]`
dict it mutates, and the loop cursor `current_phase_idx`. -/
structure Config where
  inputRecords : List Record
  companyName : String
  research : Option String
  copy : Option String
  instrR : String
  instrW : String
  retryR : Nat
  retryW : Nat
  cursor : Nat
  status : String
  result : Option String
  progress : Nat
  log : List LogEvent
deriving DecidableEq

/-- The externally visible job record (`jobs[job_id]` minus the id). -/
structure Job where
  status : String
  log : List LogEvent
  result : Option String
  progress : Nat
deriving DecidableEq

def Config.job (c : Config) : Job :=
  { status := c.status, log := c.log, result := c.result, progress := c.progress }

/-- `log_to_job`: appends one entry; its timestamp is the clock oracle
read at the current log length (the n-th `datetime.now()` call). -/
def appendLog (clock : Nat → String) (source msg kind : String) (c : Config) : Config :=
  { c with log := c.log ++ [⟨clock c.log.length, source, msg, kind⟩] }

/-- Does the character list starting here begin with `p`? -/
def startsWithChars : List Char → List Char → Bool
  | [], _ => true
  | _ :: _, [] => false
  | p :: ps, c :: cs => p == c && startsWithChars ps cs

/-- Does the character list contain `pat` as a contiguous run? -/
def containsChars (pat : List Char) : List Char → Bool
  | [] => startsWithChars pat []
  | c :: cs => startsWithChars pat (c :: cs) || containsChars pat cs

/-- Python `sub in s` on strings: substring containment. -/
def strContains (s sub : String) : Bool := containsChars sub.data s.data

/-- Python `str.lower()`; the instruction strings involved are ASCII, for
which mapping `Char.toLower` agrees with Python. -/
def lowerStr (s : String) : String := String.mk (s.data.map Char.toLower)

/-- `worker_research`, minus its `log_to_job` side effect (performed at
the call site in `step`): a pure function of the company and the current
instructions. -/
def worker_research (company instructions : String) : String :=
  if strContains (lowerStr instructions) "financial" then
    "Deep Dive Financials for " ++ company ++ ": 1. Cash flow -10% YoY. 2. Seeking Series B funding. 3. Layoffs in marketing dept."
  else if strContains (lowerStr instructions) "tech" then
    "Tech Stack for " ++ company ++ ": Using AWS, Python, Legacy SQL databases (migration planned)."
  else
    "General Overview of " ++ company ++ ": A mid-sized tech firm focusing on B2B logistics. Recently appointed a new CTO."

/-- `audit_and_revise`, minus its initial `log_to_job` (performed at the
call site in `auditStep`): invokes the audit chain on the prompt
variables, truncating the content to its first 3000 characters
(`str(current_content)[:3000]`), and converts a raised exception into
the literal auto-pass dict of the bare `except:` clause. -/
def audit_and_revise (b : AuditBackend) (task_name content previous_instructions criteria : String) :
    RawVerdict :=
  match b task_name (content.take 3000) criteria previous_instructions with
  | some res => res
  | none =>
    { status := some "PASS", reason := some "Auto-passed (Format Error)",
      new_instructions := some "" }

def researcherInstr0 : String := "Find general strategic challenges and financial health."

def writerInstr0 : String := "Write a standard professional connection request (under 300 chars)."

def researcherCriteria : String := "Must mention specific recent events."

def writerCriteria : String :=
  "Must be under 300 chars. NO placeholders like [Name]. Must sound casual, not robotic."

def MAX_RETRIES : Nat := 3

def phasesCount : Nat := 2

/-- The retry_counts entry of the state dict for the phase at index `i`. -/
def getRetry (c : Config) (i : Nat) : Nat := if i = 0 then c.retryR else c.retryW

def setRetry (c : Config) (i : Nat) (v : Nat) : Config :=
  if i = 0 then { c with retryR := v } else { c with retryW := v }

/-- The instructions entry of the state dict for the phase at index `i`. -/
def getInstr (c : Config) (i : Nat) : String := if i = 0 then c.instrR else c.instrW

def setInstr (c : Config) (i : Nat) (v : String) : Config :=
  if i = 0 then { c with instrR := v } else { c with instrW := v }

/-- `state[key] = None` for the phase at index `i`. -/
def clearArtifact (c : Config) (i : Nat) : Config :=
  if i = 0 then { c with research := none } else { c with copy := none }

/-- Line 221: progress is stored as int of cursor / len(phases) * 100.
With two phases the float arithmetic is exact, so integer arithmetic is
faithful. -/
def setProgress (c : Config) : Config := { c with progress := c.cursor * 100 / phasesCount }

/-- The audit arm of the loop body (lines 198-219 plus the log inside
`audit_and_revise`), for the phase at index `i` whose artifact is
`content`.  Field accesses on the verdict dict raise `KeyError` exactly
where the Python subscripts do: the status subscript before the verdict
is examined, and the reason subscript after the retry bookkeeping of
lines 208-214 has already mutated the state. -/
def auditStep (ab : AuditBackend) (clock : Nat → String) (c : Config)
    (i : Nat) (role content criteria : String) : Except (Config × Fault) Config :=
  let instr := getInstr c i
  let v := audit_and_revise ab role content instr criteria
  let c := appendLog clock "QA_BOT" ("Auditing " ++ role ++ "...") "info" c
  match v.status with
  | none => .error (c, .keyError "status")
  | some s =>
    if s == "PASS" then
      let c := appendLog clock "QA" "Approved." "success" c
      .ok (setProgress { c with cursor := c.cursor + 1 })
    else
      let retries := getRetry c i
      if retries < MAX_RETRIES then
        let c := setRetry c i (retries + 1)
        let c := setInstr c i (v.new_instructions.getD instr)
        let c := clearArtifact c i
        match v.reason with
        | none => .error (c, .keyError "reason")
        | some reason =>
          let c := appendLog clock "QA" ("Output Rejected: " ++ reason) "critique" c
          let c := appendLog clock "SUPERVISOR"
            ("REWRITING PROMPT FOR AGENT (Retry " ++ toString (retries + 1) ++ ")...")
            "decision" c
          .ok (setProgress c)
      else
        let c := appendLog clock "QA" "Max retries hit. Accepting result." "info" c
        .ok (setProgress { c with cursor := c.cursor + 1 })

/-- One iteration of the `while current_phase_idx < len(phases)` loop
(lines 179-221).  Phase 0 is `{"role": "RESEARCHER", "key": "research"}`,
every other cursor value selects `{"role": "WRITER", "key": "copy"}`.
`Except.error` carries the state at the raise point together with the
escaping exception. -/
def step (ab : AuditBackend) (wb : WriterBackend) (clock : Nat → String) (c : Config) :
    Except (Config × Fault) Config :=
  if c.cursor = 0 then
    match c.research with
    | none =>
      let c := appendLog clock "SUPERVISOR" ("Prompting RESEARCHER with: " ++ c.instrR)
        "decision" c
      let c := appendLog clock "RESEARCHER" ("Executing instructions: " ++ c.instrR) "info" c
      let out := worker_research c.companyName c.instrR
      .ok (setProgress { c with research := some out })
    | some content => auditStep ab clock c 0 "RESEARCHER" content researcherCriteria
  else
    match c.copy with
    | none =>
      let c := appendLog clock "SUPERVISOR" ("Prompting WRITER with: " ++ c.instrW)
        "decision" c
      let c := appendLog clock "WRITER" "Writing..." "info" c
      match c.inputRecords with
      | [] => .error (c, .indexError)
      | r :: _ =>
        match wb (r.firstName.getD "there") (r.companyName.getD "your company")
            (c.research.getD "None") c.instrW with
        | .error m => .error (c, .backendError m)
        | .ok res =>
          let c := appendLog clock "WRITER" res "thought" c
          .ok (setProgress { c with copy := some res })
    | some content => auditStep ab clock c 1 "WRITER" content writerCriteria

/-- The `except Exception as e` handler (lines 228-230). -/
def failRun (clock : Nat → String) (c : Config) (f : Fault) : Config :=
  appendLog clock "SYSTEM" ("Critical Error: " ++ faultMsg f) "info"
    { c with status := "failed" }

/-- Lines 223-226: normal loop exit. -/
def finishRun (clock : Nat → String) (c : Config) : Config :=
  appendLog clock "SYSTEM" "Workflow Complete." "info"
    { c with result := c.copy, status := "completed", progress := 100 }

/-- The loop of `process_workflow` with fuel.  The loop terminates in at
most 17 iterations (each phase performs at most 4 dispatch/audit pairs),
so the fuel of 100 used below is never exhausted on a real run. -/
def runAux (ab : AuditBackend) (wb : WriterBackend) (clock : Nat → String) :
    Nat → Config → Config
  | 0, c => c
  | n + 1, c =>
    if c.cursor < phasesCount then
      match step ab wb clock c with
      | .ok c2 => runAux ab wb clock n c2
      | .error (c2, f) => failRun clock c2 f
    else finishRun clock c

/-- The `state` dict of lines 157-168 merged with the fresh job record of
`start_job` (status `running`, empty log, no result, progress 0). -/
def initConfig (r : Record) (rs : List Record) : Config :=
  { inputRecords := r :: rs
    companyName := r.companyName.getD "Unknown"
    research := none
    copy := none
    instrR := researcherInstr0
    instrW := writerInstr0
    retryR := 0
    retryW := 0
    cursor := 0
    status := "running"
    result := none
    progress := 0
    log := [] }

/-- The job record `start_job` creates before spawning the thread. -/
def initialJob : Job := { status := "running", log := [], result := none, progress := 0 }

/-- `process_workflow`: the early `return` of line 155 leaves the job
record exactly as `start_job` created it; otherwise the phase loop runs
to completion or failure and the final job record is returned. -/
def process_workflow (ab : AuditBackend) (wb : WriterBackend) (clock : Nat → String)
    (payload : Payload) : Job :=
  match payload.records with
  | [] => initialJob
  | r :: rs => (runAux ab wb clock 100 (initConfig r rs)).job

/-- The sequence of states at the loop boundaries of one run: the state
before the first iteration, after each iteration, and after the epilogue
(`finishRun` or `failRun`). -/
def traceAux (ab : AuditBackend) (wb : WriterBackend) (clock : Nat → String) :
    Nat → Config → List Config
  | 0, c => [c]
  | n + 1, c =>
    if c.cursor < phasesCount then
      match step ab wb clock c with
      | .ok c2 => c :: traceAux ab wb clock n c2
      | .error (c2, f) => [c, failRun clock c2 f]
    else [c, finishRun clock c]

/-- The state trace of a whole run; empty when the record list is empty
(the loop is never entered and no pipeline state exists). -/
def fullTrace (ab : AuditBackend) (wb : WriterBackend) (clock : Nat → String)
    (payload : Payload) : List Config :=
  match payload.records with
  | [] => []
  | r :: rs => traceAux ab wb clock 100 (initConfig r rs)

/-! ## Timestamp-erased view of a run

Everything `process_workflow` branches on is independent of the clock
oracle: the clock only enters the `ts` field of appended log entries.
`CoreView` packages a `Config` with timestamps erased from its log; the
factorization lemmas below show each operation of the orchestrator
descends to this view, which settles how two runs at different wall
clocks relate. -/

/-- A log entry with the timestamp erased. -/
structure ErasedEvent where
  source : String
  msg : String
  kind : String
deriving DecidableEq

def LogEvent.erase (e : LogEvent) : ErasedEvent :=
  { source := e.source, msg := e.msg, kind := e.kind }

/-- A `Config` with timestamps erased from its log. -/
structure CoreView where
  inputRecords : List Record
  companyName : String
  research : Option String
  copy : Option String
  instrR : String
  instrW : String
  retryR : Nat
  retryW : Nat
  cursor : Nat
  status : String
  result : Option String
  progress : Nat
  logE : List ErasedEvent
deriving DecidableEq

def Config.core (c : Config) : CoreView :=
  { inputRecords := c.inputRecords, companyName := c.companyName, research := c.research
    copy := c.copy, instrR := c.instrR, instrW := c.instrW, retryR := c.retryR
    retryW := c.retryW, cursor := c.cursor, status := c.status, result := c.result
    progress := c.progress, logE := c.log.map LogEvent.erase }

def appendLogE (source msg kind : String) (v : CoreView) : CoreView :=
  { v with logE := v.logE ++ [⟨source, msg, kind⟩] }

def getRetryE (v : CoreView) (i : Nat) : Nat := if i = 0 then v.retryR else v.retryW

def setRetryE (v : CoreView) (i : Nat) (x : Nat) : CoreView :=
  if i = 0 then { v with retryR := x } else { v with retryW := x }

def getInstrE (v : CoreView) (i : Nat) : String := if i = 0 then v.instrR else v.instrW

def setInstrE (v : CoreView) (i : Nat) (x : String) : CoreView :=
  if i = 0 then { v with instrR := x } else { v with instrW := x }

def clearArtifactE (v : CoreView) (i : Nat) : CoreView :=
  if i = 0 then { v with research := none } else { v with copy := none }

def setProgressE (v : CoreView) : CoreView := { v with progress := v.cursor * 100 / phasesCount }

def auditStepE (ab : AuditBackend) (v : CoreView)
    (i : Nat) (role content criteria : String) : Except (CoreView × Fault) CoreView :=
  let instr := getInstrE v i
  let vd := audit_and_revise ab role content instr criteria
  let v := appendLogE "QA_BOT" ("Auditing " ++ role ++ "...") "info" v
  match vd.status with
  | none => .error (v, .keyError "status")
  | some s =>
    if s == "PASS" then
      let v := appendLogE "QA" "Approved." "success" v
      .ok (setProgressE { v with cursor := v.cursor + 1 })
    else
      let retries := getRetryE v i
      if retries < MAX_RETRIES then
        let v := setRetryE v i (retries + 1)
        let v := setInstrE v i (vd.new_instructions.getD instr)
        let v := clearArtifactE v i
        match vd.reason with
        | none => .error (v, .keyError "reason")
        | some reason =>
          let v := appendLogE "QA" ("Output Rejected: " ++ reason) "critique" v
          let v := appendLogE "SUPERVISOR"
            ("REWRITING PROMPT FOR AGENT (Retry " ++ toString (retries + 1) ++ ")...")
            "decision" v
          .ok (setProgressE v)
      else
        let v := appendLogE "QA" "Max retries hit. Accepting result." "info" v
        .ok (setProgressE { v with cursor := v.cursor + 1 })

def stepE (ab : AuditBackend) (wb : WriterBackend) (v : CoreView) :
    Except (CoreView × Fault) CoreView :=
  if v.cursor = 0 then
    match v.research with
    | none =>
      let v := appendLogE "SUPERVISOR" ("Prompting RESEARCHER with: " ++ v.instrR) "decision" v
      let v := appendLogE "RESEARCHER" ("Executing instructions: " ++ v.instrR) "info" v
      let out := worker_research v.companyName v.instrR
      .ok (setProgressE { v with research := some out })
    | some content => auditStepE ab v 0 "RESEARCHER" content researcherCriteria
  else
    match v.copy with
    | none =>
      let v := appendLogE "SUPERVISOR" ("Prompting WRITER with: " ++ v.instrW) "decision" v
      let v := appendLogE "WRITER" "Writing..." "info" v
      match v.inputRecords with
      | [] => .error (v, .indexError)
      | r :: _ =>
        match wb (r.firstName.getD "there") (r.companyName.getD "your company")
            (v.research.getD "None") v.instrW with
        | .error m => .error (v, .backendError m)
        | .ok res =>
          let v := appendLogE "WRITER" res "thought" v
          .ok (setProgressE { v with copy := some res })
    | some content => auditStepE ab v 1 "WRITER" content writerCriteria

def failRunE (v : CoreView) (f : Fault) : CoreView :=
  appendLogE "SYSTEM" ("Critical Error: " ++ faultMsg f) "info" { v with status := "failed" }

def finishRunE (v : CoreView) : CoreView :=
  appendLogE "SYSTEM" "Workflow Complete." "info"
    { v with result := v.copy, status := "completed", progress := 100 }

def runAuxE (ab : AuditBackend) (wb : WriterBackend) : Nat → CoreView → CoreView
  | 0, v => v
  | n + 1, v =>
    if v.cursor < phasesCount then
      match stepE ab wb v with
      | .ok v2 => runAuxE ab wb n v2
      | .error (v2, f) => failRunE v2 f
    else finishRunE v

/-- Lift `Config.core` over the result of one loop iteration. -/
def exceptCore : Except (Config × Fault) Config → Except (CoreView × Fault) CoreView
  | .ok c => .ok c.core
  | .error (c, f) => .error (c.core, f)

/-! ## Concrete instances used by counterexamples and witnesses -/

/-- A writer backend built from a total (never-raising) generation
function. -/
def wbOf (f : String → String → String → String → String) : WriterBackend :=
  fun a b c d => .ok (f a b c d)

def rEx : Record := { firstName := some "Sam", companyName := some "Acme" }

def payloadEx : Payload := { records := [rEx] }

/-- Audit backend whose chain always raises (unavailable backend or
output the JSON parser rejects). -/
def abThrow : AuditBackend := fun _ _ _ _ => none

/-- Audit backend returning a parseable JSON object that carries none of
the requested keys (e.g. the model answered `{}`). -/
def abNoStatus : AuditBackend := fun _ _ _ _ => some ⟨none, none, none⟩

/-- Audit backend that always approves. -/
def abPassEx : AuditBackend := fun _ _ _ _ => some ⟨some "PASS", some "ok", some ""⟩

/-- Audit backend that always rejects and proposes no replacement
instruction (the `new_instructions` key is absent). -/
def abFailNoNI : AuditBackend := fun _ _ _ _ => some ⟨some "FAIL", some "bad", none⟩

/-- Audit backend that always rejects and proposes the empty string as
replacement instruction. -/
def abFailEmptyNI : AuditBackend := fun _ _ _ _ => some ⟨some "FAIL", some "bad", some ""⟩

/-- Audit backend that echoes the submitted content back in the status
field, making the submitted content observable in the verdict. -/
def abEcho : AuditBackend := fun _ content _ _ => some ⟨some content, none, none⟩

def wbOkEx : WriterBackend := fun _ _ _ _ => .ok "hi Sam"

def ckA : Nat → String := fun _ => "10:00:00"

def ckB : Nat → String := fun _ => "10:00:01"

/-- A pipeline state mid-run: researcher phase active with an artifact
awaiting audit. -/
def cAudR : Config :=
  { initConfig rEx [] with research := some "draft r" }

/-- A pipeline state mid-run: writer phase active with an artifact
awaiting audit and the writer retry budget exhausted. -/
def cEscW : Config :=
  { initConfig rEx [] with
    cursor := 1
    research := some "res"
    copy := some "draft w"
    retryR := 3
    retryW := 3 }

/-- An artifact of 3001 identical characters. -/
def bigA : String := String.mk (List.replicate 3001 'a')

/-- An artifact agreeing with `bigA` on the first 3000 characters and
differing at position 3000. -/
def bigB : String := String.mk (List.replicate 3000 'a' ++ ['b'])

/-! ## Factorization of the orchestrator through the erased view -/

theorem getInstrE_core (c : Config) (i : Nat) : getInstrE c.core i = getInstr c i := rfl

theorem getRetryE_core (c : Config) (i : Nat) : getRetryE c.core i = getRetry c i := rfl

theorem core_appendLog (ck : Nat → String) (s m k : String) (c : Config) :
    (appendLog ck s m k c).core = appendLogE s m k c.core := by
  simp [appendLog, appendLogE, Config.core, LogEvent.erase]

theorem core_setRetry (c : Config) (i x : Nat) :
    (setRetry c i x).core = setRetryE c.core i x := by
  by_cases h : i = 0 <;> simp [h, setRetry, setRetryE, Config.core]

theorem core_setInstr (c : Config) (i : Nat) (x : String) :
    (setInstr c i x).core = setInstrE c.core i x := by
  by_cases h : i = 0 <;> simp [h, setInstr, setInstrE, Config.core]

theorem core_clearArtifact (c : Config) (i : Nat) :
    (clearArtifact c i).core = clearArtifactE c.core i := by
  by_cases h : i = 0 <;> simp [h, clearArtifact, clearArtifactE, Config.core]

theorem core_setProgress (c : Config) :
    (setProgress c).core = setProgressE c.core := by
  simp [setProgress, setProgressE, Config.core]

theorem core_auditStep (ab : AuditBackend) (ck : Nat → String) (c : Config)
    (i : Nat) (role content criteria : String) :
    exceptCore (auditStep ab ck c i role content criteria) =
      auditStepE ab c.core i role content criteria := by
  have hgi : getInstrE c.core i = getInstr c i := rfl
  have hgr : ∀ s m k, getRetryE (appendLogE s m k c.core) i = getRetry c i := fun _ _ _ => rfl
  have hgr2 : ∀ s m k, getRetry (appendLog ck s m k c) i = getRetry c i := fun _ _ _ => rfl
  simp only [auditStep, auditStepE, hgi, hgr, hgr2]
  cases hv : (audit_and_revise ab role content (getInstr c i) criteria).status with
  | none =>
    simp [exceptCore, Config.core, appendLog, appendLogE, LogEvent.erase]
  | some s =>
    dsimp only
    by_cases hp : s = "PASS"
    · have hpb : (s == "PASS") = true := by simp [hp]
      rw [hpb]
      by_cases hi : i = 0 <;>
        simp_all [exceptCore, Config.core, appendLog, appendLogE, LogEvent.erase,
          setProgress, setProgressE]
    · have hpb : (s == "PASS") = false := by simp [hp]
      rw [hpb]
      by_cases hr : getRetry c i < MAX_RETRIES
      · rw [if_neg (by simp : ¬(false = true)), if_neg (by simp : ¬(false = true)), if_pos hr, if_pos hr]
        cases hrs : (audit_and_revise ab role content (getInstr c i) criteria).reason with
        | none =>
          by_cases hi : i = 0 <;>
            simp_all [exceptCore, Config.core, appendLog, appendLogE, LogEvent.erase,
              setRetry, setRetryE, setInstr, setInstrE, clearArtifact, clearArtifactE]
        | some reason =>
          by_cases hi : i = 0 <;>
            simp_all [exceptCore, Config.core, appendLog, appendLogE, LogEvent.erase,
              setRetry, setRetryE, setInstr, setInstrE, clearArtifact, clearArtifactE,
              setProgress, setProgressE]
      · rw [if_neg (by simp : ¬(false = true)), if_neg (by simp : ¬(false = true)), if_neg hr, if_neg hr]
        by_cases hi : i = 0 <;>
          simp_all [exceptCore, Config.core, appendLog, appendLogE, LogEvent.erase,
            setProgress, setProgressE]

theorem core_step (ab : AuditBackend) (wb : WriterBackend) (ck : Nat → String) (c : Config) :
    exceptCore (step ab wb ck c) = stepE ab wb c.core := by
  have h1 : c.core.cursor = c.cursor := rfl
  have h2 : c.core.research = c.research := rfl
  have h3 : c.core.copy = c.copy := rfl
  have h4 : c.core.inputRecords = c.inputRecords := rfl
  have h5 : c.core.instrR = c.instrR := rfl
  have h6 : c.core.instrW = c.instrW := rfl
  have h7 : c.core.companyName = c.companyName := rfl
  simp only [step, stepE, appendLog, appendLogE, h1, h2, h3, h4, h5, h6, h7]
  by_cases hc : c.cursor = 0
  · rw [if_pos hc, if_pos hc]
    cases hres : c.research with
    | none =>
      simp [hres, exceptCore, Config.core, setProgress, setProgressE, LogEvent.erase]
    | some content =>
      have := core_auditStep ab ck c 0 "RESEARCHER" content researcherCriteria
      simpa [auditStep, auditStepE, appendLog, appendLogE] using this
  · rw [if_neg hc, if_neg hc]
    cases hcopy : c.copy with
    | none =>
      cases hrec : c.inputRecords with
      | nil => simp [hrec, exceptCore, Config.core, LogEvent.erase]
      | cons r rs =>
        simp only [hrec]
        cases hwb : wb (r.firstName.getD "there") (r.companyName.getD "your company")
            (c.research.getD "None") c.instrW with
        | error m => simp [hwb, exceptCore, Config.core, LogEvent.erase]
        | ok res => simp [hwb, exceptCore, Config.core, setProgress, setProgressE, LogEvent.erase]
    | some content =>
      have := core_auditStep ab ck c 1 "WRITER" content writerCriteria
      simpa [auditStep, auditStepE, appendLog, appendLogE] using this

theorem core_failRun (ck : Nat → String) (c : Config) (f : Fault) :
    (failRun ck c f).core = failRunE c.core f := by
  simp [failRun, failRunE, Config.core, appendLog, appendLogE, LogEvent.erase]

theorem core_finishRun (ck : Nat → String) (c : Config) :
    (finishRun ck c).core = finishRunE c.core := by
  simp [finishRun, finishRunE, Config.core, appendLog, appendLogE, LogEvent.erase]

theorem core_runAux (ab : AuditBackend) (wb : WriterBackend) (ck : Nat → String) :
    ∀ (n : Nat) (c : Config), (runAux ab wb ck n c).core = runAuxE ab wb n c.core := by
  intro n
  induction n with
  | zero => intro c; rfl
  | succ n ih =>
    intro c
    simp only [runAux, runAuxE]
    have hcur : c.core.cursor = c.cursor := rfl
    rw [hcur]
    by_cases h : c.cursor < phasesCount
    · simp only [h, if_true, if_pos]
      have hs := core_step ab wb ck c
      cases hstep : step ab wb ck c with
      | ok c2 =>
        rw [hstep] at hs
        cases hstepE : stepE ab wb c.core with
        | ok v2 =>
          rw [hstepE] at hs
          simp only [exceptCore] at hs
          injection hs with hs
          rw [ih c2, hs]
        | error p =>
          rw [hstepE] at hs
          simp [exceptCore] at hs
      | error p =>
        obtain ⟨c2, f⟩ := p
        rw [hstep] at hs
        cases hstepE : stepE ab wb c.core with
        | ok v2 =>
          rw [hstepE] at hs
          simp [exceptCore] at hs
        | error q =>
          obtain ⟨v2, g⟩ := q
          rw [hstepE] at hs
          simp only [exceptCore] at hs
          injection hs with hs
          injection hs with h1 h2
          rw [core_failRun, h1, h2]
    · simp only [h, if_false, if_neg, not_false_iff]
      exact core_finishRun ck c

/-! ## Per-iteration facts about the loop body -/

theorem step_ok_spec (ab : AuditBackend) (wb : WriterBackend) (ck : Nat → String)
    (c c2 : Config) (h : step ab wb ck c = .ok c2) :
    c.retryR ≤ c2.retryR ∧ c.retryW ≤ c2.retryW ∧
    c2.retryR ≤ max c.retryR MAX_RETRIES ∧ c2.retryW ≤ max c.retryW MAX_RETRIES ∧
    c.cursor ≤ c2.cursor ∧ c2.cursor ≤ c.cursor + 1 ∧
    c2.progress = c2.cursor * 100 / phasesCount := by
  simp only [step, auditStep] at h
  repeat' split at h
  all_goals cases h
  all_goals
    simp_all [appendLog, setProgress, setRetry, setInstr, clearArtifact, getRetry, getInstr]
  all_goals omega

theorem step_err_spec (ab : AuditBackend) (wb : WriterBackend) (ck : Nat → String)
    (c c2 : Config) (f : Fault) (h : step ab wb ck c = .error (c2, f)) :
    c.retryR ≤ c2.retryR ∧ c.retryW ≤ c2.retryW ∧
    c2.retryR ≤ max c.retryR MAX_RETRIES ∧ c2.retryW ≤ max c.retryW MAX_RETRIES ∧
    c2.cursor = c.cursor ∧ c2.progress = c.progress := by
  simp only [step, auditStep] at h
  repeat' split at h
  all_goals cases h
  all_goals
    simp_all [appendLog, setProgress, setRetry, setInstr, clearArtifact, getRetry, getInstr]
  all_goals omega

/-! ## Trace-level invariants -/

theorem traceAux_head (ab : AuditBackend) (wb : WriterBackend) (ck : Nat → String)
    (n : Nat) (c : Config) : (traceAux ab wb ck n c).head? = some c := by
  cases n with
  | zero => rfl
  | succ n =>
    simp only [traceAux]
    by_cases h : c.cursor < phasesCount
    · simp only [h, if_true]
      cases hs : step ab wb ck c with
      | ok c2 => simp
      | error p => obtain ⟨c2, f⟩ := p; simp
    · simp [h]

theorem traceAux_chain_retry (ab : AuditBackend) (wb : WriterBackend) (ck : Nat → String) :
    ∀ (n : Nat) (c : Config),
    List.Chain' (fun a b => a.retryR ≤ b.retryR ∧ a.retryW ≤ b.retryW)
      (traceAux ab wb ck n c) := by
  intro n
  induction n with
  | zero => intro c; simp [traceAux]
  | succ n ih =>
    intro c
    simp only [traceAux]
    by_cases h : c.cursor < phasesCount
    · simp only [h, if_true]
      cases hs : step ab wb ck c with
      | ok c2 =>
        rw [List.chain'_cons']
        refine ⟨?_, ih c2⟩
        intro y hy
        rw [traceAux_head] at hy
        cases hy
        have sp := step_ok_spec ab wb ck c c2 hs
        exact ⟨sp.1, sp.2.1⟩
      | error p =>
        obtain ⟨c2, f⟩ := p
        have sp := step_err_spec ab wb ck c c2 f hs
        simp [failRun, appendLog]
        exact ⟨sp.1, sp.2.1⟩
    · simp [h, finishRun, appendLog]

theorem traceAux_forall_retry (ab : AuditBackend) (wb : WriterBackend) (ck : Nat → String) :
    ∀ (n : Nat) (c : Config), c.retryR ≤ MAX_RETRIES → c.retryW ≤ MAX_RETRIES →
    List.Forall (fun x => x.retryR ≤ MAX_RETRIES ∧ x.retryW ≤ MAX_RETRIES)
      (traceAux ab wb ck n c) := by
  intro n
  induction n with
  | zero => intro c h1 h2; exact ⟨h1, h2⟩
  | succ n ih =>
    intro c h1 h2
    simp only [traceAux]
    by_cases h : c.cursor < phasesCount
    · simp only [h, if_true]
      cases hs : step ab wb ck c with
      | ok c2 =>
        have sp := step_ok_spec ab wb ck c c2 hs
        rw [List.forall_cons]
        exact ⟨⟨h1, h2⟩, ih c2 (by omega) (by omega)⟩
      | error p =>
        obtain ⟨c2, f⟩ := p
        have sp := step_err_spec ab wb ck c c2 f hs
        simp [failRun, appendLog]
        omega
    · simp [h, finishRun, appendLog]
      omega

theorem traceAux_chain_progress (ab : AuditBackend) (wb : WriterBackend) (ck : Nat → String) :
    ∀ (n : Nat) (c : Config),
    c.progress ≤ c.cursor * 100 / phasesCount → c.cursor ≤ phasesCount →
    List.Chain' (fun a b => a.progress ≤ b.progress) (traceAux ab wb ck n c) := by
  intro n
  induction n with
  | zero => intro c _ _; simp [traceAux]
  | succ n ih =>
    intro c h1 h2
    simp only [traceAux]
    by_cases h : c.cursor < phasesCount
    · simp only [h, if_true]
      cases hs : step ab wb ck c with
      | ok c2 =>
        have sp := step_ok_spec ab wb ck c c2 hs
        rw [List.chain'_cons']
        constructor
        · intro y hy
          rw [traceAux_head] at hy
          cases hy
          have hmono : c.cursor * 100 / phasesCount ≤ c2.cursor * 100 / phasesCount :=
            Nat.div_le_div_right (Nat.mul_le_mul_right 100 sp.2.2.2.2.1)
          omega
        · exact ih c2 (le_of_eq sp.2.2.2.2.2.2) (by omega)
      | error p =>
        obtain ⟨c2, f⟩ := p
        have sp := step_err_spec ab wb ck c c2 f hs
        simp [failRun, appendLog]
        omega
    · have hfin : c.cursor * 100 / phasesCount ≤ 100 := by
        simp only [phasesCount] at h2 ⊢
        omega
      simp [h, finishRun, appendLog]
      omega

/-! ## The reject-and-retry and escalation transitions in closed form -/

theorem step_reject_r (ab : AuditBackend) (wb : WriterBackend) (ck : Nat → String)
    (c : Config) (a s r : String) (ni : Option String)
    (hc : c.cursor = 0) (ha : c.research = some a)
    (hv : audit_and_revise ab "RESEARCHER" a c.instrR researcherCriteria =
      { status := some s, reason := some r, new_instructions := ni })
    (hs : s ≠ "PASS") (hlt : c.retryR < MAX_RETRIES) :
    step ab wb ck c = .ok
      { c with
        research := none
        retryR := c.retryR + 1
        instrR := ni.getD c.instrR
        progress := c.cursor * 100 / phasesCount
        log := c.log ++
          [⟨ck c.log.length, "QA_BOT", "Auditing RESEARCHER...", "info"⟩,
            ⟨ck (c.log.length + 1), "QA", "Output Rejected: " ++ r, "critique"⟩,
            ⟨ck (c.log.length + 2), "SUPERVISOR",
              "REWRITING PROMPT FOR AGENT (Retry " ++ toString (c.retryR + 1) ++ ")...",
              "decision"⟩] } := by
  have hsb : (s == "PASS") = false := by simp [hs]
  simp only [step, auditStep, hc, ha, getInstr, getRetry, appendLog,
    eq_self_iff_true, if_true, ite_true, one_ne_zero, if_false, ite_false]
  rw [hv]
  simp only [hsb]
  simp [hlt, setRetry, setInstr, clearArtifact, setProgress, getRetry, hc, List.append_assoc]

theorem step_reject_w (ab : AuditBackend) (wb : WriterBackend) (ck : Nat → String)
    (c : Config) (a s r : String) (ni : Option String)
    (hc : c.cursor = 1) (ha : c.copy = some a)
    (hv : audit_and_revise ab "WRITER" a c.instrW writerCriteria =
      { status := some s, reason := some r, new_instructions := ni })
    (hs : s ≠ "PASS") (hlt : c.retryW < MAX_RETRIES) :
    step ab wb ck c = .ok
      { c with
        copy := none
        retryW := c.retryW + 1
        instrW := ni.getD c.instrW
        progress := c.cursor * 100 / phasesCount
        log := c.log ++
          [⟨ck c.log.length, "QA_BOT", "Auditing WRITER...", "info"⟩,
            ⟨ck (c.log.length + 1), "QA", "Output Rejected: " ++ r, "critique"⟩,
            ⟨ck (c.log.length + 2), "SUPERVISOR",
              "REWRITING PROMPT FOR AGENT (Retry " ++ toString (c.retryW + 1) ++ ")...",
              "decision"⟩] } := by
  have hsb : (s == "PASS") = false := by simp [hs]
  simp only [step, auditStep, hc, ha, getInstr, getRetry, appendLog,
    eq_self_iff_true, if_true, ite_true, one_ne_zero, if_false, ite_false]
  rw [hv]
  simp only [hsb]
  simp [hlt, setRetry, setInstr, clearArtifact, setProgress, getRetry, hc, List.append_assoc]

theorem step_escalate_r (ab : AuditBackend) (wb : WriterBackend) (ck : Nat → String)
    (c : Config) (a s : String) (re ni : Option String)
    (hc : c.cursor = 0) (ha : c.research = some a)
    (hv : audit_and_revise ab "RESEARCHER" a c.instrR researcherCriteria =
      { status := some s, reason := re, new_instructions := ni })
    (hs : s ≠ "PASS") (hmax : ¬ c.retryR < MAX_RETRIES) :
    step ab wb ck c = .ok
      { c with
        cursor := c.cursor + 1
        progress := (c.cursor + 1) * 100 / phasesCount
        log := c.log ++
          [⟨ck c.log.length, "QA_BOT", "Auditing RESEARCHER...", "info"⟩,
            ⟨ck (c.log.length + 1), "QA", "Max retries hit. Accepting result.", "info"⟩] } := by
  have hsb : (s == "PASS") = false := by simp [hs]
  simp only [step, auditStep, hc, ha, getInstr, getRetry, appendLog,
    eq_self_iff_true, if_true, ite_true, one_ne_zero, if_false, ite_false]
  rw [hv]
  simp only [hsb]
  simp [hmax, setProgress, hc, List.append_assoc]

theorem step_escalate_w (ab : AuditBackend) (wb : WriterBackend) (ck : Nat → String)
    (c : Config) (a s : String) (re ni : Option String)
    (hc : c.cursor = 1) (ha : c.copy = some a)
    (hv : audit_and_revise ab "WRITER" a c.instrW writerCriteria =
      { status := some s, reason := re, new_instructions := ni })
    (hs : s ≠ "PASS") (hmax : ¬ c.retryW < MAX_RETRIES) :
    step ab wb ck c = .ok
      { c with
        cursor := c.cursor + 1
        progress := (c.cursor + 1) * 100 / phasesCount
        log := c.log ++
          [⟨ck c.log.length, "QA_BOT", "Auditing WRITER...", "info"⟩,
            ⟨ck (c.log.length + 1), "QA", "Max retries hit. Accepting result.", "info"⟩] } := by
  have hsb : (s == "PASS") = false := by simp [hs]
  simp only [step, auditStep, hc, ha, getInstr, getRetry, appendLog,
    eq_self_iff_true, if_true, ite_true, one_ne_zero, if_false, ite_false]
  rw [hv]
  simp only [hsb]
  simp [hmax, setProgress, hc, List.append_assoc]

/-! ## Claims -/

/-- C1: the claim says an empty record list terminates the run as
`failed` with no dispatch event and no worker invoked.  The code indeed
invokes no worker and appends no event, but its early `return` (line
155) happens before the `try` block and before any status update, so the
job stays exactly as `start_job` created it: status `running` forever,
never `failed`.  This theorem evaluates the code at the failing input. -/
theorem C1_empty_records_keeps_running (ab : AuditBackend) (wb : WriterBackend)
    (ck : Nat → String) :
    process_workflow ab wb ck { records := [] } = initialJob ∧
    initialJob.status = "running" ∧ initialJob.log = [] :=
  ⟨rfl, rfl, rfl⟩

/-- C2 (amended): when the audit chain raises (backend unavailable or
output the JSON parser cannot parse), `audit_and_revise` swallows the
fault and returns the literal auto-pass verdict with the synthetic
reason, and a run whose audit calls all raise still completes: every
phase passes on first audit, the cursor advances to the end, the run is
never marked failed, and the final result is the writer output.  (The
original claim also covered parseable-but-malformed verdicts; those
crash the orchestrator instead, see the counterexample.) -/
theorem C2_fail_open_on_thrown (r : Record) (rs : List Record)
    (wf : String → String → String → String → String) (ck : Nat → String) :
    (∀ role content prev crit,
        audit_and_revise abThrow role content prev crit =
          { status := some "PASS", reason := some "Auto-passed (Format Error)",
            new_instructions := some "" }) ∧
    (process_workflow abThrow (wbOf wf) ck { records := r :: rs }).status = "completed" ∧
    (process_workflow abThrow (wbOf wf) ck { records := r :: rs }).result =
      some (wf (r.firstName.getD "there") (r.companyName.getD "your company")
        (worker_research (r.companyName.getD "Unknown") researcherInstr0) writerInstr0) :=
  ⟨fun _ _ _ _ => rfl, rfl, rfl⟩

/-- C2 counterexample: a parseable but malformed structured verdict (a
JSON object with no `status` key, e.g. the model answered `{}`) is
returned by the auditor unchanged — not converted to a Pass verdict —
and the subsequent status subscript in the orchestrator
raises, so the run IS marked failed by an audit-side backend fault,
contradicting the claim. -/
theorem C2_malformed_verdict_fails_run :
    (audit_and_revise abNoStatus "RESEARCHER" "x" researcherInstr0
        researcherCriteria).status ≠ some "PASS" ∧
    (process_workflow abNoStatus wbOkEx ckA payloadEx).status = "failed" :=
  ⟨by decide, by decide⟩

/-- C3 (amended): a reject-and-retry transition clears the artifact,
increments the retry counter, and sets the phase instruction to the
verdict `new_instructions` value when that key is present, leaving it
unchanged otherwise; no other worker input (records, company name,
research state, the other phase instruction) changes, and no feedback
mechanism exists, so when the proposal is absent — or merely repeats the
previous instruction — the phase is re-dispatched with byte-identical
worker inputs (the original claim said this can never happen). -/
theorem C3_reject_transition :
    (∀ (ab : AuditBackend) (wb : WriterBackend) (ck : Nat → String) (c : Config)
        (a s r : String) (ni : Option String),
      c.cursor = 0 → c.research = some a →
      audit_and_revise ab "RESEARCHER" a c.instrR researcherCriteria =
        { status := some s, reason := some r, new_instructions := ni } →
      s ≠ "PASS" → c.retryR < MAX_RETRIES →
      ∃ c2, step ab wb ck c = .ok c2 ∧ c2.research = none ∧
        c2.retryR = c.retryR + 1 ∧ c2.instrR = ni.getD c.instrR ∧
        c2.inputRecords = c.inputRecords ∧ c2.companyName = c.companyName ∧
        c2.instrW = c.instrW ∧ c2.copy = c.copy ∧ c2.cursor = c.cursor) ∧
    (∀ (ab : AuditBackend) (wb : WriterBackend) (ck : Nat → String) (c : Config)
        (a s r : String) (ni : Option String),
      c.cursor = 1 → c.copy = some a →
      audit_and_revise ab "WRITER" a c.instrW writerCriteria =
        { status := some s, reason := some r, new_instructions := ni } →
      s ≠ "PASS" → c.retryW < MAX_RETRIES →
      ∃ c2, step ab wb ck c = .ok c2 ∧ c2.copy = none ∧
        c2.retryW = c.retryW + 1 ∧ c2.instrW = ni.getD c.instrW ∧
        c2.inputRecords = c.inputRecords ∧ c2.companyName = c.companyName ∧
        c2.instrR = c.instrR ∧ c2.research = c.research ∧ c2.cursor = c.cursor) := by
  constructor
  · intro ab wb ck c a s r ni hc ha hv hs hlt
    exact ⟨_, step_reject_r ab wb ck c a s r ni hc ha hv hs hlt,
      rfl, rfl, rfl, rfl, rfl, rfl, rfl, rfl⟩
  · intro ab wb ck c a s r ni hc ha hv hs hlt
    exact ⟨_, step_reject_w ab wb ck c a s r ni hc ha hv hs hlt,
      rfl, rfl, rfl, rfl, rfl, rfl, rfl, rfl⟩

/-- Witness for the amended C3 at a concrete input: the always-fail
audit backend proposing no replacement instruction, applied to the
initial researcher state holding an artifact. -/
theorem C3_reject_transition_witness :
    ∃ c2, step abFailNoNI wbOkEx ckA cAudR = .ok c2 ∧ c2.research = none ∧
      c2.retryR = cAudR.retryR + 1 ∧ c2.instrR = Option.getD none cAudR.instrR ∧
      c2.inputRecords = cAudR.inputRecords ∧ c2.companyName = cAudR.companyName ∧
      c2.instrW = cAudR.instrW ∧ c2.copy = cAudR.copy ∧ c2.cursor = cAudR.cursor :=
  C3_reject_transition.1 abFailNoNI wbOkEx ckA cAudR "draft r" "FAIL" "bad" none
    rfl rfl (by decide) (by decide) (by decide)

/-- C3 counterexample (refuting the claim as stated): with a Fail
verdict carrying no `new_instructions`, the retry of the RESEARCHER
phase is dispatched with inputs byte-identical to the first dispatch:
log entries 0 and 5 are the same dispatch event (same instruction, and
with equal clock readings even the same rendered block), and the
artifact produced by the retry equals the rejected one (trace states 1
and 3 hold the same research artifact). -/
theorem C3_identical_retry_dispatch :
    (process_workflow abFailNoNI wbOkEx ckA payloadEx).log[0]? =
      (process_workflow abFailNoNI wbOkEx ckA payloadEx).log[5]? ∧
    (process_workflow abFailNoNI wbOkEx ckA payloadEx).log[0]? =
      some ⟨"10:00:00", "SUPERVISOR",
        "Prompting RESEARCHER with: " ++ researcherInstr0, "decision"⟩ ∧
    ((fullTrace abFailNoNI wbOkEx ckA payloadEx).get? 1).map Config.research =
      ((fullTrace abFailNoNI wbOkEx ckA payloadEx).get? 3).map Config.research ∧
    ((fullTrace abFailNoNI wbOkEx ckA payloadEx).get? 1).map Config.research ≠
      some none :=
  ⟨by decide, by decide, by decide, by decide⟩

/-- C4 (amended): on a Fail verdict that carries a reason, a missing
`new_instructions` key makes the orchestrator fall back to the current
phase instruction unchanged, without crashing (the transition
succeeds); but an empty-string `new_instructions` is NOT treated as
missing: the orchestrator stores the empty string as the new instruction
(also without crashing), so the next dispatch does not reuse the prior
instruction.  Both parts are stated for the researcher phase and hold
verbatim for the writer phase by `step_reject_w`. -/
theorem C4_absent_replacement_fallback :
    (∀ (ab : AuditBackend) (wb : WriterBackend) (ck : Nat → String) (c : Config)
        (a s r : String),
      c.cursor = 0 → c.research = some a →
      audit_and_revise ab "RESEARCHER" a c.instrR researcherCriteria =
        { status := some s, reason := some r, new_instructions := none } →
      s ≠ "PASS" → c.retryR < MAX_RETRIES →
      ∃ c2, step ab wb ck c = .ok c2 ∧ c2.instrR = c.instrR) ∧
    (∀ (ab : AuditBackend) (wb : WriterBackend) (ck : Nat → String) (c : Config)
        (a s r : String),
      c.cursor = 0 → c.research = some a →
      audit_and_revise ab "RESEARCHER" a c.instrR researcherCriteria =
        { status := some s, reason := some r, new_instructions := some "" } →
      s ≠ "PASS" → c.retryR < MAX_RETRIES →
      ∃ c2, step ab wb ck c = .ok c2 ∧ c2.instrR = "") := by
  constructor
  · intro ab wb ck c a s r hc ha hv hs hlt
    exact ⟨_, step_reject_r ab wb ck c a s r none hc ha hv hs hlt, rfl⟩
  · intro ab wb ck c a s r hc ha hv hs hlt
    exact ⟨_, step_reject_r ab wb ck c a s r (some "") hc ha hv hs hlt, rfl⟩

/-- Witness for the amended C4: the absent-key fallback at a concrete
state and backend. -/
theorem C4_absent_replacement_fallback_witness :
    ∃ c2, step abFailNoNI wbOkEx ckA cAudR = .ok c2 ∧ c2.instrR = cAudR.instrR :=
  C4_absent_replacement_fallback.1 abFailNoNI wbOkEx ckA cAudR "draft r" "FAIL" "bad"
    rfl rfl (by decide) (by decide) (by decide)

/-- C4 counterexample (refuting the claim as stated): a Fail verdict
whose `new_instructions` field is the empty string does not leave the
instruction unchanged: after the reject transition of this concrete run
the researcher instruction is `""`, while before it was the (nonempty)
initial instruction. -/
theorem C4_empty_replacement_overwrites :
    ((fullTrace abFailEmptyNI wbOkEx ckA payloadEx).get? 2).map Config.instrR =
      some "" ∧
    ((fullTrace abFailEmptyNI wbOkEx ckA payloadEx).get? 1).map Config.instrR =
      some researcherInstr0 ∧
    researcherInstr0 ≠ "" :=
  ⟨by decide, by decide, by decide⟩

/-- C5: once a phase retry counter has reached `MAX_RETRIES`, the next
audit cycle with a failing (non-PASS) verdict advances the cursor anyway
and keeps the rejected artifact; for the last (writer) phase the loop
then exits normally, so the still-rejected artifact becomes the final
result of the run and the status is `completed`.  The first conjunct states
this for the writer phase including run completion for any remaining
fuel; the second for the researcher phase. -/
theorem C5_escalation_accepts_artifact :
    (∀ (ab : AuditBackend) (wb : WriterBackend) (ck : Nat → String) (c : Config)
        (a s : String) (re ni : Option String) (n : Nat),
      c.cursor = 1 → c.copy = some a →
      audit_and_revise ab "WRITER" a c.instrW writerCriteria =
        { status := some s, reason := re, new_instructions := ni } →
      s ≠ "PASS" → c.retryW = MAX_RETRIES →
      ∃ c2, step ab wb ck c = .ok c2 ∧ c2.cursor = 2 ∧ c2.copy = some a ∧
        (runAux ab wb ck (n + 1) c2).status = "completed" ∧
        (runAux ab wb ck (n + 1) c2).result = some a) ∧
    (∀ (ab : AuditBackend) (wb : WriterBackend) (ck : Nat → String) (c : Config)
        (a s : String) (re ni : Option String),
      c.cursor = 0 → c.research = some a →
      audit_and_revise ab "RESEARCHER" a c.instrR researcherCriteria =
        { status := some s, reason := re, new_instructions := ni } →
      s ≠ "PASS" → c.retryR = MAX_RETRIES →
      ∃ c2, step ab wb ck c = .ok c2 ∧ c2.cursor = 1 ∧ c2.research = some a ∧
        c2.retryR = MAX_RETRIES) := by
  constructor
  · intro ab wb ck c a s re ni n hc ha hv hs hmax
    refine ⟨_, step_escalate_w ab wb ck c a s re ni hc ha hv hs (by omega), ?_, ?_, ?_, ?_⟩
    · simp [hc]
    · simp [ha]
    · simp only [runAux, hc, phasesCount]
      norm_num [finishRun, appendLog]
    · simp only [runAux, hc, phasesCount]
      norm_num [finishRun, appendLog, ha]
  · intro ab wb ck c a s re ni hc ha hv hs hmax
    refine ⟨_, step_escalate_r ab wb ck c a s re ni hc ha hv hs (by omega), ?_, ?_, ?_⟩
    · simp [hc]
    · simp [ha]
    · simp [hmax]

/-- Witness for C5: a concrete writer-phase state with exhausted retry
budget, audited by the always-fail backend, run to completion with the
rejected artifact as result. -/
theorem C5_escalation_accepts_artifact_witness :
    ∃ c2, step abFailNoNI wbOkEx ckA cEscW = .ok c2 ∧ c2.cursor = 2 ∧
      c2.copy = some "draft w" ∧
      (runAux abFailNoNI wbOkEx ckA (0 + 1) c2).status = "completed" ∧
      (runAux abFailNoNI wbOkEx ckA (0 + 1) c2).result = some "draft w" :=
  C5_escalation_accepts_artifact.1 abFailNoNI wbOkEx ckA cEscW "draft w" "FAIL"
    (some "bad") none 0 rfl rfl (by decide) (by decide) (by decide)

/-- C6: for every phase of every run the retry counter starts at 0, is
monotone non-decreasing (never reset) along the whole state trace of the
run, and never exceeds `MAX_RETRIES` (3) at any point of the trace. -/
theorem C6_retry_counter_invariants (ab : AuditBackend) (wb : WriterBackend)
    (ck : Nat → String) (payload : Payload) :
    (∀ (r : Record) (rs : List Record),
        (initConfig r rs).retryR = 0 ∧ (initConfig r rs).retryW = 0) ∧
    List.Chain' (fun a b => a.retryR ≤ b.retryR ∧ a.retryW ≤ b.retryW)
      (fullTrace ab wb ck payload) ∧
    List.Forall (fun x => x.retryR ≤ MAX_RETRIES ∧ x.retryW ≤ MAX_RETRIES)
      (fullTrace ab wb ck payload) := by
  refine ⟨fun r rs => ⟨rfl, rfl⟩, ?_, ?_⟩
  · cases hp : payload.records with
    | nil => simp [fullTrace, hp]
    | cons r rs =>
      simp only [fullTrace, hp]
      exact traceAux_chain_retry ab wb ck 100 _
  · cases hp : payload.records with
    | nil => simp [fullTrace, hp, List.Forall]
    | cons r rs =>
      simp only [fullTrace, hp]
      exact traceAux_forall_retry ab wb ck 100 _ (Nat.zero_le _) (Nat.zero_le _)

/-- C7: the stored progress percentage is non-decreasing over the
lifetime of a run: along the whole state trace (every per-iteration
recomputation `cursor / len(phases) * 100`, the final `100` on
completion, and the unchanged value on a fault) the stored value never
decreases. -/
theorem C7_progress_monotone (ab : AuditBackend) (wb : WriterBackend)
    (ck : Nat → String) (payload : Payload) :
    List.Chain' (fun a b => a.progress ≤ b.progress) (fullTrace ab wb ck payload) := by
  cases hp : payload.records with
  | nil => simp [fullTrace, hp]
  | cons r rs =>
    simp only [fullTrace, hp]
    exact traceAux_chain_progress ab wb ck 100 _ (Nat.zero_le _) (by simp [initConfig, phasesCount])

set_option maxRecDepth 100000 in
/-- C8: an unhandled fault during dispatch (the writer generation call
raises with message `m`) or during audit (the verdict object lacks the
`status` key, so the subscript of the missing key raises) sets the
run status to `failed`, appends the fault message as the final terminal
event, and nothing further is dispatched or retried: the final job
record is given in full for both scenarios, the terminal event closing
the log. -/
theorem C8_fault_terminates_run (m : String) (ck : Nat → String) (wb : WriterBackend) :
    process_workflow abPassEx (fun _ _ _ _ => .error m) ck payloadEx =
      { status := "failed"
        log := [⟨ck 0, "SUPERVISOR", "Prompting RESEARCHER with: " ++ researcherInstr0, "decision"⟩,
          ⟨ck 1, "RESEARCHER", "Executing instructions: " ++ researcherInstr0, "info"⟩,
          ⟨ck 2, "QA_BOT", "Auditing RESEARCHER...", "info"⟩,
          ⟨ck 3, "QA", "Approved.", "success"⟩,
          ⟨ck 4, "SUPERVISOR", "Prompting WRITER with: " ++ writerInstr0, "decision"⟩,
          ⟨ck 5, "WRITER", "Writing...", "info"⟩,
          ⟨ck 6, "SYSTEM", "Critical Error: " ++ m, "info"⟩]
        result := none
        progress := 50 } ∧
    process_workflow abNoStatus wb ck payloadEx =
      { status := "failed"
        log := [⟨ck 0, "SUPERVISOR", "Prompting RESEARCHER with: " ++ researcherInstr0, "decision"⟩,
          ⟨ck 1, "RESEARCHER", "Executing instructions: " ++ researcherInstr0, "info"⟩,
          ⟨ck 2, "QA_BOT", "Auditing RESEARCHER...", "info"⟩,
          ⟨ck 3, "SYSTEM", "Critical Error: status", "info"⟩]
        result := none
        progress := 0 } := by
  constructor <;> with_unfolding_all rfl

/-- C9 (amended): as long as the backends are the same deterministic
functions, two runs on the same payload agree on final status, result
and progress, and their event sequences agree up to timestamps, whatever
wall-clock readings the two executions see; the raw (rendered) event
sequences themselves can differ in timestamps only. -/
theorem C9_deterministic_up_to_timestamps (ab : AuditBackend) (wb : WriterBackend)
    (ck1 ck2 : Nat → String) (payload : Payload) :
    (process_workflow ab wb ck1 payload).status = (process_workflow ab wb ck2 payload).status ∧
    (process_workflow ab wb ck1 payload).result = (process_workflow ab wb ck2 payload).result ∧
    (process_workflow ab wb ck1 payload).progress =
      (process_workflow ab wb ck2 payload).progress ∧
    (process_workflow ab wb ck1 payload).log.map LogEvent.erase =
      (process_workflow ab wb ck2 payload).log.map LogEvent.erase := by
  cases hp : payload.records with
  | nil => simp [process_workflow, hp]
  | cons r rs =>
    have hcore : (runAux ab wb ck1 100 (initConfig r rs)).core =
        (runAux ab wb ck2 100 (initConfig r rs)).core := by
      rw [core_runAux, core_runAux]
    simp only [process_workflow, hp]
    exact ⟨congrArg CoreView.status hcore, congrArg CoreView.result hcore,
      congrArg CoreView.progress hcore, congrArg CoreView.logE hcore⟩

/-- C9 counterexample (refuting the claim as stated): the same payload
against the same deterministic backends, executed at two different wall
clocks, yields different event sequences — the log blocks embed
`datetime.now()` timestamps, and both the stored html data and its
rendered form differ — while the final results coincide.  Two real runs
necessarily execute at different times, so identical event sequences
fail. -/
theorem C9_timestamp_divergence :
    (process_workflow abPassEx wbOkEx ckA payloadEx).log.map renderEvent ≠
      (process_workflow abPassEx wbOkEx ckB payloadEx).log.map renderEvent ∧
    (process_workflow abPassEx wbOkEx ckA payloadEx).log ≠
      (process_workflow abPassEx wbOkEx ckB payloadEx).log ∧
    (process_workflow abPassEx wbOkEx ckA payloadEx).result =
      (process_workflow abPassEx wbOkEx ckB payloadEx).result :=
  ⟨by decide, by decide, by decide⟩

/-- C10: the auditor submits exactly the first 3000 characters of the
artifact string form to the audit backend (`str(current_content)[:3000]`),
so the verdict can never depend on characters beyond position 3000: two
artifacts agreeing on their first 3000 characters receive identical
verdicts from any backend. -/
theorem C10_audit_truncation (b : AuditBackend) (role c1 c2 prev crit : String)
    (h : c1.take 3000 = c2.take 3000) :
    audit_and_revise b role c1 prev crit = audit_and_revise b role c2 prev crit := by
  simp only [audit_and_revise, h]

/-- Witness for C10: two artifacts of length 3001 differing at position
3000 (past the cut) get identical verdicts even from a backend that
echoes the submitted content. -/
theorem C10_audit_truncation_witness :
    audit_and_revise abEcho "WRITER" bigA writerInstr0 writerCriteria =
      audit_and_revise abEcho "WRITER" bigB writerInstr0 writerCriteria :=
  C10_audit_truncation abEcho "WRITER" bigA bigB writerInstr0 writerCriteria (by
    rw [String.take_eq, String.take_eq]
    show (⟨(List.replicate 3001 'a').take 3000⟩ : String) =
      ⟨(List.replicate 3000 'a' ++ ['b']).take 3000⟩
    rw [List.take_replicate, List.take_append_of_le_length (by norm_num [List.length_replicate]), List.take_replicate]
    norm_num)
